import Mathlib

/-!
# Verification of the CarpoolBackend ride-matching core

Shallow embedding of `src/app.py` / `src/db.py` (Flask + SQLAlchemy carpool
backend).  The database rows become Lean structures, each HTTP endpoint's
logic becomes a pure function from an explicit application state (plus the
decoded request body) to `Except Err AppState`; an error result leaves the
caller's state unchanged, matching the code, which returns a failure
response before performing any mutation (every success path ends in a
single `db.session.commit()`).

Modelling conventions, each noted again at the definition it concerns:
* Timestamps (`'YYYY-MM-DD HH:MM:SS'` strings parsed with
  `datetime.strptime`) are modelled by their parsed value as an integer
  number of seconds.  The code's conflict test
  `abs((existing - new).total_seconds() / 3600) < 2` on whole-second
  datetimes is exactly `|Δseconds| < 7200` (the float division of an
  integer by 3600 cannot round across the exactly-representable bound 2.0
  for any datetime difference), so the embedding uses the integer form.
* JSON body values are modelled by `JVal` (null/number/string), enough to
  express Python truthiness (`if not body.get(field)`) and numeric
  conversion exactly as the code applies them.  Python floats for `price`
  are restricted to integers; no claim depends on fractional prices.
* SQLAlchemy relationship lists (`passengers`, `pending_passengers`,
  via the `passenger` and `pending_passenger` association tables) are
  `List Nat` of user ids; Python `list.append` is `· ++ [u]` and
  `list.remove` (first occurrence) is `List.erase`.
-/

abbrev UserId := Nat
abbrev RideId := Nat

/-- A row of the `carpools` table together with its association-table
contents (`passengers` from the `passenger` table, `pending_passengers`
from the `pending_passenger` table), as used by `app.py`.  `start_time`
is the parsed timestamp in seconds. -/
structure Ride where
  rid : RideId
  start_location : String
  end_location : String
  start_time : Int
  total_capacity : Int
  price : Int
  car_type : String
  license_plate : String
  driver_id : UserId
  passengers : List UserId
  pending_passengers : List UserId
deriving DecidableEq, Repr

/-- The persistent store: registered user ids (only identity of a `users`
row is consulted by the ride endpoints), the carpools, and the
autoincrement counter for new carpool ids. -/
structure AppState where
  users : List UserId
  rides : List Ride
  next_ride_id : RideId
deriving DecidableEq, Repr

/-- The empty store the app starts from (`db.create_all()` on a fresh
database). -/
def initState : AppState := { users := [], rides := [], next_ride_id := 1 }

/-- One constructor per distinct `failure_response` call in `app.py`
(message and status code identify the constructor). -/
inductive Err where
  | carpoolNotFound          -- "Carpool not found!", 404
  | missingUserId            -- "Missing user_id field", 400
  | userNotFound             -- "User not found!", 404
  | carpoolFull              -- "Carpool is full!", 400
  | alreadyCurrentRider      -- "User is already a current rider!", 400
  | alreadyPendingRider      -- "User is already a pending rider!", 400
  | scheduleConflictUser     -- "User has a conflicting carpool at this time!", 400
  | notInCarpool             -- "User is not in this carpool!", 400
  | notInPendingList         -- "User is not in pending riders list!", 400
  | onlyDriverCanDelete      -- "Only the driver can delete this carpool!", 403
  | missingField (name : String)  -- "Missing required field: <name>", 400
  | invalidPriceFormat       -- "Invalid price format", 400
  | negativePrice            -- "Price cannot be negative", 400
  | invalidCapacityFormat    -- "Invalid total capacity format", 400
  | capacityTooSmall         -- "Total capacity must be greater than 1", 400
  | pastStartTime            -- "Start time cannot be in the past", 400
  | invalidTimeFormat        -- "Invalid start time format. ...", 400
  | driverNotFound           -- "Driver not found", 404
  | driverScheduleConflict   -- "Driver already has a carpool scheduled around this time", 400
deriving DecidableEq, Repr

/-- The spec's `InvalidField` failure class (§7: missing/malformed required
field, bad time format, non-positive capacity, negative price). -/
def Err.isInvalidField : Err → Bool
  | .missingField _ => true
  | .invalidPriceFormat => true
  | .negativePrice => true
  | .invalidCapacityFormat => true
  | .capacityTooSmall => true
  | .pastStartTime => true
  | .invalidTimeFormat => true
  | _ => false

instance {e a : Type} [DecidableEq e] [DecidableEq a] :
    DecidableEq (Except e a) := fun x y =>
  match x, y with
  | .ok u, .ok v =>
    if h : u = v then isTrue (by rw [h]) else isFalse (by simp [h])
  | .error u, .error v =>
    if h : u = v then isTrue (by rw [h]) else isFalse (by simp [h])
  | .ok _, .error _ => isFalse (by simp)
  | .error _, .ok _ => isFalse (by simp)

/-- `Carpool.query.filter_by(id=carpool_id).first()`. -/
def findRide (s : AppState) (rid : RideId) : Option Ride :=
  s.rides.find? (fun r => r.rid == rid)

/-- Writing back a mutated carpool row: replace the row that was found
(the first one with this id) by its updated value. -/
def putRide (rides : List Ride) (r : Ride) : List Ride :=
  match rides with
  | [] => []
  | x :: xs => if x.rid == r.rid then r :: xs else x :: putRide xs r

/-- `available_seats` as computed in `Carpool.serialize`
(`total_capacity - len(passengers) - 1`). -/
def available_seats (c : Ride) : Int :=
  c.total_capacity - c.passengers.length - 1

/-- `check_passenger_availability(user_id, start_time)`: rides where the
user is driver plus rides where the user is a passenger; available iff no
collected ride starts within 2 hours (7200 s) of the candidate time. -/
def check_passenger_availability (s : AppState) (user_id : UserId)
    (start_time : Int) : Bool :=
  let driver_carpools := s.rides.filter (fun c => c.driver_id == user_id)
  let passenger_carpools := s.rides.filter (fun c => c.passengers.contains user_id)
  let all_carpools := driver_carpools ++ passenger_carpools
  all_carpools.all (fun c => !((c.start_time - start_time).natAbs < 7200 : Bool))

/-- `check_driver_availability(driver_id, start_time)`: like the passenger
check but over rides where the user is the driver only. -/
def check_driver_availability (s : AppState) (driver_id : UserId)
    (start_time : Int) : Bool :=
  let existing_carpools := s.rides.filter (fun c => c.driver_id == driver_id)
  existing_carpools.all (fun c => !((c.start_time - start_time).natAbs < 7200 : Bool))

/-- A decoded JSON body value: `jnull` is an absent key or JSON null. -/
inductive JVal where
  | jnull
  | jnum (n : Int)
  | jstr (s : String)
deriving DecidableEq, Repr

/-- Python truthiness of a body value, as used by
`if not body.get(field)`: `None`, `0` and `""` are falsy. -/
def JVal.truthy : JVal → Bool
  | .jnull => false
  | .jnum n => n != 0
  | .jstr s => s != ""

/-- Numeric conversion (`float(...)` / `int(...)`) of a body value,
restricted to integers: numbers pass through, strings parse as an integer
or fail, null fails. -/
def JVal.toNum : JVal → Option Int
  | .jnull => none
  | .jnum n => some n
  | .jstr s => s.toInt?

/-- `User.query.filter_by(id=<value>)` with a raw body value: only a
non-negative numeric id can match a `users` row. -/
def JVal.asUserId : JVal → Option UserId
  | .jnum n => if n < 0 then none else some n.toNat
  | _ => none

/-- String content of a (truthy) text field. -/
def JVal.asString : JVal → String
  | .jstr s => s
  | .jnum n => toString n
  | .jnull => ""

/-- The `start_time` body field, abstracting the pair (string value,
`datetime.strptime` outcome): `absent` is a falsy value (missing key or
empty string), `unparsable` a truthy string the fixed
`'%Y-%m-%d %H:%M:%S'` format rejects, `parsed t` a well-formed timestamp
whose parsed value is `t` seconds.  `strftime` of a parsed value followed
by `strptime` is the identity, so the formatted string stored on the ride
is modelled by `t` itself. -/
inductive TimeField where
  | absent
  | unparsable
  | parsed (t : Int)
deriving DecidableEq, Repr

/-- Truthiness of the `start_time` field value. -/
def TimeField.truthy : TimeField → Bool
  | .absent => false
  | _ => true

/-- The decoded request body of `POST /api/carpools/`. -/
structure CreateBody where
  start_location : JVal
  end_location : JVal
  start_time : TimeField
  total_capacity : JVal
  price : JVal
  car_type : JVal
  license_plate : JVal
  driver_id : JVal
deriving DecidableEq, Repr

/-- `create_carpool` (`POST /api/carpools/`): required-field truthiness
checks in source order, then price, capacity and start-time validation,
driver lookup, the driver 2-hour availability check, and on success a new
carpool with empty passenger and pending lists.  `now` is
`datetime.now()`. -/
def create_carpool (s : AppState) (now : Int) (body : CreateBody) :
    Except Err AppState :=
  if body.start_location.truthy = false then .error (.missingField "start_location")
  else if body.end_location.truthy = false then .error (.missingField "end_location")
  else if body.start_time.truthy = false then .error (.missingField "start_time")
  else if body.total_capacity.truthy = false then .error (.missingField "total_capacity")
  else if body.price.truthy = false then .error (.missingField "price")
  else if body.car_type.truthy = false then .error (.missingField "car_type")
  else if body.license_plate.truthy = false then .error (.missingField "license_plate")
  else if body.driver_id.truthy = false then .error (.missingField "driver_id")
  else match body.price.toNum with
  | none => .error .invalidPriceFormat
  | some price =>
    if price < 0 then .error .negativePrice
    else match body.total_capacity.toNum with
    | none => .error .invalidCapacityFormat
    | some total_capacity =>
      if total_capacity ≤ 1 then .error .capacityTooSmall
      else match body.start_time with
      | .absent => .error .invalidTimeFormat
      | .unparsable => .error .invalidTimeFormat
      | .parsed t =>
        if t ≤ now then .error .pastStartTime
        else match body.driver_id.asUserId with
        | none => .error .driverNotFound
        | some driver_id =>
          if s.users.contains driver_id = false then .error .driverNotFound
          else if check_driver_availability s driver_id t = false then
            .error .driverScheduleConflict
          else .ok { s with
            rides := s.rides ++ [{
              rid := s.next_ride_id,
              start_location := body.start_location.asString,
              end_location := body.end_location.asString,
              start_time := t,
              total_capacity := total_capacity,
              price := price,
              car_type := body.car_type.asString,
              license_plate := body.license_plate.asString,
              driver_id := driver_id,
              passengers := [],
              pending_passengers := [] }],
            next_ride_id := s.next_ride_id + 1 }

/-- `get_all_carpools` (`GET /api/carpools/all/`): the endpoint reads no
query parameters or body and returns every carpool. -/
def get_all_carpools (s : AppState) : List Ride :=
  s.rides

/-- `join_carpool` (`POST /api/carpools/<id>/join/`): request to join as a
pending rider.  `user_id` is `body.get("user_id")` (the code tests it
with `is None`, so `none` models an absent key). -/
def join_carpool (s : AppState) (carpool_id : RideId)
    (user_id : Option UserId) : Except Err AppState :=
  match findRide s carpool_id with
  | none => .error .carpoolNotFound
  | some carpool =>
    match user_id with
    | none => .error .missingUserId
    | some uid =>
      if s.users.contains uid = false then .error .userNotFound
      else if (carpool.passengers.length : Int) ≥ carpool.total_capacity - 1 then
        .error .carpoolFull
      else if uid == carpool.driver_id || carpool.passengers.contains uid then
        .error .alreadyCurrentRider
      else if carpool.pending_passengers.contains uid then
        .error .alreadyPendingRider
      else if check_passenger_availability s uid carpool.start_time = false then
        .error .scheduleConflictUser
      else
        let c' := { carpool with
          pending_passengers := carpool.pending_passengers ++ [uid] }
        .ok { s with rides := putRide s.rides c' }

/-- `leave_carpool` (`POST /api/carpools/<id>/leave/`). -/
def leave_carpool (s : AppState) (carpool_id : RideId)
    (user_id : Option UserId) : Except Err AppState :=
  match findRide s carpool_id with
  | none => .error .carpoolNotFound
  | some carpool =>
    match user_id with
    | none => .error .missingUserId
    | some uid =>
      if s.users.contains uid = false then .error .userNotFound
      else if carpool.passengers.contains uid = false then .error .notInCarpool
      else
        let c' := { carpool with passengers := carpool.passengers.erase uid }
        .ok { s with rides := putRide s.rides c' }

/-- `cancel_pending_request` (`POST /api/carpools/<id>/cancel_pending/`). -/
def cancel_pending_request (s : AppState) (carpool_id : RideId)
    (user_id : Option UserId) : Except Err AppState :=
  match findRide s carpool_id with
  | none => .error .carpoolNotFound
  | some carpool =>
    match user_id with
    | none => .error .missingUserId
    | some uid =>
      if s.users.contains uid = false then .error .userNotFound
      else if carpool.pending_passengers.contains uid = false then
        .error .notInPendingList
      else
        let c' := { carpool with
          pending_passengers := carpool.pending_passengers.erase uid }
        .ok { s with rides := putRide s.rides c' }

/-- `accept_rider` (`POST /api/carpools/<id>/accept_rider/`): pending
check, then the capacity re-check, then the move from pending to
passengers under the one final `db.session.commit()`. -/
def accept_rider (s : AppState) (carpool_id : RideId)
    (user_id : Option UserId) : Except Err AppState :=
  match findRide s carpool_id with
  | none => .error .carpoolNotFound
  | some carpool =>
    match user_id with
    | none => .error .missingUserId
    | some uid =>
      if s.users.contains uid = false then .error .userNotFound
      else if carpool.pending_passengers.contains uid = false then
        .error .notInPendingList
      else if (carpool.passengers.length : Int) ≥ carpool.total_capacity - 1 then
        .error .carpoolFull
      else
        let c' := { carpool with
          pending_passengers := carpool.pending_passengers.erase uid,
          passengers := carpool.passengers ++ [uid] }
        .ok { s with rides := putRide s.rides c' }

/-- `decline_rider` (`POST /api/carpools/<id>/decline_rider/`). -/
def decline_rider (s : AppState) (carpool_id : RideId)
    (user_id : Option UserId) : Except Err AppState :=
  match findRide s carpool_id with
  | none => .error .carpoolNotFound
  | some carpool =>
    match user_id with
    | none => .error .missingUserId
    | some uid =>
      if s.users.contains uid = false then .error .userNotFound
      else if carpool.pending_passengers.contains uid = false then
        .error .notInPendingList
      else
        let c' := { carpool with
          pending_passengers := carpool.pending_passengers.erase uid }
        .ok { s with rides := putRide s.rides c' }

/-- `delete_carpool` (`DELETE /api/carpools/<id>/`): only the driver may
delete; on success the passenger and pending association rows are cleared
and the carpool row is deleted (the body's `user_id` is compared with
`driver_id` directly, without a `users` lookup). -/
def delete_carpool (s : AppState) (carpool_id : RideId)
    (user_id : Option UserId) : Except Err AppState :=
  match findRide s carpool_id with
  | none => .error .carpoolNotFound
  | some carpool =>
    match user_id with
    | none => .error .missingUserId
    | some uid =>
      if uid != carpool.driver_id then .error .onlyDriverCanDelete
      else .ok { s with rides := s.rides.filter (fun r => !(r.rid == carpool_id)) }

/-- The derived back-reference `User.joined_carpools` (rides the user is a
confirmed passenger of, via the `passenger` association table). -/
def joined_carpools (s : AppState) (uid : UserId) : List Ride :=
  s.rides.filter (fun c => c.passengers.contains uid)

/-- The derived back-reference `User.pending_carpools` (rides the user has
requested, via the `pending_passenger` association table). -/
def pending_carpools (s : AppState) (uid : UserId) : List Ride :=
  s.rides.filter (fun c => c.pending_passengers.contains uid)

/-- One API call against the store.  `register` abstracts `create_user`
(`POST /api/users/`): the ride endpoints consult a `users` row only for
existence of its id, and `create_user` never touches ride state, so
registration is modelled as adding an id to the user table. -/
inductive Op where
  | register (uid : UserId)
  | create (now : Int) (body : CreateBody)
  | join (rid : RideId) (uid : Option UserId)
  | accept (rid : RideId) (uid : Option UserId)
  | leave (rid : RideId) (uid : Option UserId)
  | cancelPending (rid : RideId) (uid : Option UserId)
  | decline (rid : RideId) (uid : Option UserId)
  | delete (rid : RideId) (uid : Option UserId)

/-- A failed request leaves the store unchanged (the endpoint returns its
failure response before any mutation). -/
def applyResult (s : AppState) : Except Err AppState → AppState
  | .ok s' => s'
  | .error _ => s

/-- The store after one API call. -/
def step (s : AppState) : Op → AppState
  | .register uid =>
      if s.users.contains uid then s else { s with users := s.users ++ [uid] }
  | .create now body => applyResult s (create_carpool s now body)
  | .join rid uid => applyResult s (join_carpool s rid uid)
  | .accept rid uid => applyResult s (accept_rider s rid uid)
  | .leave rid uid => applyResult s (leave_carpool s rid uid)
  | .cancelPending rid uid => applyResult s (cancel_pending_request s rid uid)
  | .decline rid uid => applyResult s (decline_rider s rid uid)
  | .delete rid uid => applyResult s (delete_carpool s rid uid)

/-- States reachable from the empty store by any sequence of API calls. -/
inductive Reachable : AppState → Prop where
  | init : Reachable initState
  | next {s : AppState} (op : Op) : Reachable s → Reachable (step s op)

/-- Per-ride well-formedness: capacity at least 2 (driver plus one),
confirmed passengers within the `total_capacity - 1` ceiling, no
duplicates in either roster list, the driver in neither, and the two
lists disjoint. -/
def RideInv (r : Ride) : Prop :=
  2 ≤ r.total_capacity ∧
  (r.passengers.length : Int) ≤ r.total_capacity - 1 ∧
  r.passengers.Nodup ∧
  r.pending_passengers.Nodup ∧
  r.driver_id ∉ r.passengers ∧
  r.driver_id ∉ r.pending_passengers ∧
  ∀ u ∈ r.passengers, u ∉ r.pending_passengers

instance (r : Ride) : Decidable (RideInv r) := by
  unfold RideInv; infer_instance

/-- Every ride in the store is well-formed. -/
def StateInv (s : AppState) : Prop := ∀ r ∈ s.rides, RideInv r

theorem contains_true_iff {l : List Nat} {a : Nat} :
    l.contains a = true ↔ a ∈ l := by
  simp

theorem contains_false_iff {l : List Nat} {a : Nat} :
    l.contains a = false ↔ a ∉ l := by
  simp

/-- A row of the written-back table is an old row or the updated one. -/
theorem mem_putRide {rides : List Ride} {c r : Ride}
    (h : r ∈ putRide rides c) : r ∈ rides ∨ r = c := by
  induction rides with
  | nil => simp [putRide] at h
  | cons x xs ih =>
    rw [putRide] at h
    by_cases hx : (x.rid == c.rid) = true
    · rw [if_pos hx] at h
      rcases List.mem_cons.mp h with h | h
      · exact Or.inr h
      · exact Or.inl (List.mem_cons_of_mem _ h)
    · rw [if_neg hx] at h
      rcases List.mem_cons.mp h with h | h
      · exact Or.inl (h ▸ List.mem_cons_self x xs)
      · rcases ih h with h | h
        · exact Or.inl (List.mem_cons_of_mem _ h)
        · exact Or.inr h

/-- Appending a new pending rider who is neither driver, confirmed, nor
already pending preserves per-ride well-formedness. -/
theorem RideInv.addPending {c : Ride} {uid : UserId} (hc : RideInv c)
    (hdr : ¬uid = c.driver_id) (hpass : uid ∉ c.passengers)
    (hpend : uid ∉ c.pending_passengers) :
    RideInv { c with pending_passengers := c.pending_passengers ++ [uid] } := by
  obtain ⟨h1, h2, h3, h4, h5, h6, h7⟩ := hc
  refine ⟨h1, h2, h3, ?_, h5, ?_, ?_⟩
  · simp [List.nodup_append, h4, List.disjoint_singleton, hpend]
  · simp only [List.mem_append, List.mem_singleton]
    rintro (h | h)
    · exact h6 h
    · exact hdr h.symm
  · intro u hu
    simp only [List.mem_append, List.mem_singleton]
    rintro (h | h)
    · exact h7 u hu h
    · exact hpass (h ▸ hu)

/-- Moving a pending rider into the confirmed list, with a free seat,
preserves per-ride well-formedness. -/
theorem RideInv.acceptPending {c : Ride} {uid : UserId} (hc : RideInv c)
    (hpend : uid ∈ c.pending_passengers)
    (hseat : (c.passengers.length : Int) < c.total_capacity - 1) :
    RideInv { c with
      pending_passengers := c.pending_passengers.erase uid,
      passengers := c.passengers ++ [uid] } := by
  obtain ⟨h1, h2, h3, h4, h5, h6, h7⟩ := hc
  have hup : uid ∉ c.passengers := fun hu => h7 uid hu hpend
  refine ⟨h1, ?_, ?_, h4.erase uid, ?_, ?_, ?_⟩
  · simp only [List.length_append, List.length_singleton]
    push_cast
    omega
  · simp [List.nodup_append, h3, List.disjoint_singleton, hup]
  · simp only [List.mem_append, List.mem_singleton]
    rintro (h | h)
    · exact h5 h
    · exact h6 (h ▸ hpend)
  · exact fun h => h6 (List.mem_of_mem_erase h)
  · intro u hu
    rcases List.mem_append.mp hu with h | h
    · exact fun he => h7 u h (List.mem_of_mem_erase he)
    · rw [List.mem_singleton] at h
      subst h
      exact h4.not_mem_erase

/-- A successful join request preserves the store invariant. -/
theorem join_preserves_inv {s s' : AppState} {rid : RideId}
    {uid? : Option UserId} (hinv : StateInv s)
    (h : join_carpool s rid uid? = .ok s') : StateInv s' := by
  unfold join_carpool at h
  split at h
  · exact Except.noConfusion h
  case _ carpool hfind =>
    split at h
    · exact Except.noConfusion h
    case _ uid =>
      split at h
      · exact Except.noConfusion h
      · split at h
        · exact Except.noConfusion h
        · split at h
          · exact Except.noConfusion h
          case _ hrider =>
            split at h
            · exact Except.noConfusion h
            case _ hpend =>
              split at h
              · exact Except.noConfusion h
              · simp only [Except.ok.injEq] at h
                subst h
                intro r hr
                simp only at hr
                rcases mem_putRide hr with hmem | heq
                · exact hinv r hmem
                · subst heq
                  have hcmem : carpool ∈ s.rides := List.mem_of_find?_eq_some hfind
                  have hc := hinv carpool hcmem
                  simp only [Bool.or_eq_true, beq_iff_eq, not_or] at hrider
                  rw [contains_true_iff] at hrider hpend
                  push_neg at hrider
                  exact hc.addPending hrider.1 hrider.2 hpend

/-- Removing a confirmed passenger preserves per-ride well-formedness. -/
theorem RideInv.erasePassenger {c : Ride} (uid : UserId) (hc : RideInv c) :
    RideInv { c with passengers := c.passengers.erase uid } := by
  obtain ⟨h1, h2, h3, h4, h5, h6, h7⟩ := hc
  refine ⟨h1, ?_, h3.erase uid, h4, ?_, h6, ?_⟩
  · show ((c.passengers.erase uid).length : Int) ≤ c.total_capacity - 1
    have := (c.passengers.erase_sublist uid).length_le
    omega
  · exact fun h => h5 (List.mem_of_mem_erase h)
  · exact fun u hu => h7 u (List.mem_of_mem_erase hu)

/-- Removing a pending rider preserves per-ride well-formedness. -/
theorem RideInv.erasePending {c : Ride} (uid : UserId) (hc : RideInv c) :
    RideInv { c with pending_passengers := c.pending_passengers.erase uid } := by
  obtain ⟨h1, h2, h3, h4, h5, h6, h7⟩ := hc
  refine ⟨h1, h2, h3, h4.erase uid, h5, ?_, ?_⟩
  · exact fun h => h6 (List.mem_of_mem_erase h)
  · exact fun u hu he => h7 u hu (List.mem_of_mem_erase he)

/-- A successful accept preserves the store invariant. -/
theorem accept_preserves_inv {s s' : AppState} {rid : RideId}
    {uid? : Option UserId} (hinv : StateInv s)
    (h : accept_rider s rid uid? = .ok s') : StateInv s' := by
  unfold accept_rider at h
  split at h
  · exact Except.noConfusion h
  case _ carpool hfind =>
    split at h
    · exact Except.noConfusion h
    case _ uid =>
      split at h
      · exact Except.noConfusion h
      · split at h
        · exact Except.noConfusion h
        case _ hpend =>
          split at h
          · exact Except.noConfusion h
          case _ hseat =>
            simp only [Except.ok.injEq] at h
            subst h
            intro r hr
            simp only at hr
            rcases mem_putRide hr with hmem | heq
            · exact hinv r hmem
            · subst heq
              have hc := hinv carpool (List.mem_of_find?_eq_some hfind)
              have hpend' : carpool.pending_passengers.contains uid = true := by
                cases hcc : carpool.pending_passengers.contains uid with
                | true => rfl
                | false => exact absurd hcc hpend
              exact hc.acceptPending (contains_true_iff.mp hpend') (by omega)

/-- A successful leave preserves the store invariant. -/
theorem leave_preserves_inv {s s' : AppState} {rid : RideId}
    {uid? : Option UserId} (hinv : StateInv s)
    (h : leave_carpool s rid uid? = .ok s') : StateInv s' := by
  unfold leave_carpool at h
  split at h
  · exact Except.noConfusion h
  case _ carpool hfind =>
    split at h
    · exact Except.noConfusion h
    case _ uid =>
      split at h
      · exact Except.noConfusion h
      · split at h
        · exact Except.noConfusion h
        · simp only [Except.ok.injEq] at h
          subst h
          intro r hr
          rcases mem_putRide hr with hmem | heq
          · exact hinv r hmem
          · subst heq
            exact (hinv carpool (List.mem_of_find?_eq_some hfind)).erasePassenger uid

/-- A successful cancel-pending preserves the store invariant. -/
theorem cancel_preserves_inv {s s' : AppState} {rid : RideId}
    {uid? : Option UserId} (hinv : StateInv s)
    (h : cancel_pending_request s rid uid? = .ok s') : StateInv s' := by
  unfold cancel_pending_request at h
  split at h
  · exact Except.noConfusion h
  case _ carpool hfind =>
    split at h
    · exact Except.noConfusion h
    case _ uid =>
      split at h
      · exact Except.noConfusion h
      · split at h
        · exact Except.noConfusion h
        · simp only [Except.ok.injEq] at h
          subst h
          intro r hr
          rcases mem_putRide hr with hmem | heq
          · exact hinv r hmem
          · subst heq
            exact (hinv carpool (List.mem_of_find?_eq_some hfind)).erasePending uid

/-- A successful decline preserves the store invariant. -/
theorem decline_preserves_inv {s s' : AppState} {rid : RideId}
    {uid? : Option UserId} (hinv : StateInv s)
    (h : decline_rider s rid uid? = .ok s') : StateInv s' := by
  unfold decline_rider at h
  split at h
  · exact Except.noConfusion h
  case _ carpool hfind =>
    split at h
    · exact Except.noConfusion h
    case _ uid =>
      split at h
      · exact Except.noConfusion h
      · split at h
        · exact Except.noConfusion h
        · simp only [Except.ok.injEq] at h
          subst h
          intro r hr
          rcases mem_putRide hr with hmem | heq
          · exact hinv r hmem
          · subst heq
            exact (hinv carpool (List.mem_of_find?_eq_some hfind)).erasePending uid

/-- A successful delete preserves the store invariant. -/
theorem delete_preserves_inv {s s' : AppState} {rid : RideId}
    {uid? : Option UserId} (hinv : StateInv s)
    (h : delete_carpool s rid uid? = .ok s') : StateInv s' := by
  unfold delete_carpool at h
  split at h
  · exact Except.noConfusion h
  · split at h
    · exact Except.noConfusion h
    · split at h
      · exact Except.noConfusion h
      · simp only [Except.ok.injEq] at h
        subst h
        intro r hr
        exact hinv r (List.mem_of_mem_filter hr)

/-- A successful create preserves the store invariant: the new ride has
capacity at least 2 and empty rosters. -/
theorem create_preserves_inv {s s' : AppState} {now : Int}
    {body : CreateBody} (hinv : StateInv s)
    (h : create_carpool s now body = .ok s') : StateInv s' := by
  unfold create_carpool at h
  by_cases h1 : body.start_location.truthy = false
  · rw [if_pos h1] at h; exact Except.noConfusion h
  rw [if_neg h1] at h
  by_cases h2 : body.end_location.truthy = false
  · rw [if_pos h2] at h; exact Except.noConfusion h
  rw [if_neg h2] at h
  by_cases h3 : body.start_time.truthy = false
  · rw [if_pos h3] at h; exact Except.noConfusion h
  rw [if_neg h3] at h
  by_cases h4 : body.total_capacity.truthy = false
  · rw [if_pos h4] at h; exact Except.noConfusion h
  rw [if_neg h4] at h
  by_cases h5 : body.price.truthy = false
  · rw [if_pos h5] at h; exact Except.noConfusion h
  rw [if_neg h5] at h
  by_cases h6 : body.car_type.truthy = false
  · rw [if_pos h6] at h; exact Except.noConfusion h
  rw [if_neg h6] at h
  by_cases h7 : body.license_plate.truthy = false
  · rw [if_pos h7] at h; exact Except.noConfusion h
  rw [if_neg h7] at h
  by_cases h8 : body.driver_id.truthy = false
  · rw [if_pos h8] at h; exact Except.noConfusion h
  rw [if_neg h8] at h
  rcases hpn : body.price.toNum with _ | price
  · simp only [hpn] at h; exact Except.noConfusion h
  simp only [hpn] at h
  by_cases h9 : price < 0
  · rw [if_pos h9] at h; exact Except.noConfusion h
  rw [if_neg h9] at h
  rcases hcn : body.total_capacity.toNum with _ | cap
  · simp only [hcn] at h; exact Except.noConfusion h
  simp only [hcn] at h
  by_cases h10 : cap ≤ 1
  · rw [if_pos h10] at h; exact Except.noConfusion h
  rw [if_neg h10] at h
  rcases hst : body.start_time with _ | _ | t
  · simp only [hst] at h; exact Except.noConfusion h
  · simp only [hst] at h; exact Except.noConfusion h
  simp only [hst] at h
  by_cases h11 : t ≤ now
  · rw [if_pos h11] at h; exact Except.noConfusion h
  rw [if_neg h11] at h
  rcases hdu : body.driver_id.asUserId with _ | did
  · simp only [hdu] at h; exact Except.noConfusion h
  simp only [hdu] at h
  by_cases h12 : s.users.contains did = false
  · rw [if_pos h12] at h; exact Except.noConfusion h
  rw [if_neg h12] at h
  by_cases h13 : check_driver_availability s did t = false
  · rw [if_pos h13] at h; exact Except.noConfusion h
  rw [if_neg h13] at h
  simp only [Except.ok.injEq] at h
  subst h
  intro r hr
  simp only [List.mem_append, List.mem_singleton] at hr
  rcases hr with hmem | heq
  · exact hinv r hmem
  · subst heq
    refine ⟨?_, ?_, by simp, by simp, by simp, by simp, by simp⟩
    · show (2:Int) ≤ cap
      omega
    · show ((([] : List UserId).length : Int)) ≤ cap - 1
      simp only [List.length_nil, Nat.cast_zero]
      omega

/-- Every API call preserves the store invariant. -/
theorem step_preserves_inv {s : AppState} (hinv : StateInv s) (op : Op) :
    StateInv (step s op) := by
  cases op with
  | register uid =>
    simp only [step]
    split
    · exact hinv
    · exact fun r hr => hinv r hr
  | create now body =>
    simp only [step]
    unfold applyResult
    split
    case _ s' heq => exact create_preserves_inv hinv heq
    · exact hinv
  | join rid uid =>
    simp only [step]
    unfold applyResult
    split
    case _ s' heq => exact join_preserves_inv hinv heq
    · exact hinv
  | accept rid uid =>
    simp only [step]
    unfold applyResult
    split
    case _ s' heq => exact accept_preserves_inv hinv heq
    · exact hinv
  | leave rid uid =>
    simp only [step]
    unfold applyResult
    split
    case _ s' heq => exact leave_preserves_inv hinv heq
    · exact hinv
  | cancelPending rid uid =>
    simp only [step]
    unfold applyResult
    split
    case _ s' heq => exact cancel_preserves_inv hinv heq
    · exact hinv
  | decline rid uid =>
    simp only [step]
    unfold applyResult
    split
    case _ s' heq => exact decline_preserves_inv hinv heq
    · exact hinv
  | delete rid uid =>
    simp only [step]
    unfold applyResult
    split
    case _ s' heq => exact delete_preserves_inv hinv heq
    · exact hinv

/-- Every reachable store satisfies the invariant. -/
theorem reachable_inv {s : AppState} (h : Reachable s) : StateInv s := by
  induction h with
  | init => intro r hr; simp [initState] at hr
  | next op _ ih => exact step_preserves_inv ih op

/-- A valid creation request used to exercise theorems on concrete data:
driver 1, capacity 2, price 15, departing at t = 10000 s. -/
def demoBody : CreateBody :=
  { start_location := .jstr "Ithaca",
    end_location := .jstr "NYC",
    start_time := .parsed 10000,
    total_capacity := .jnum 2,
    price := .jnum 15,
    car_type := .jstr "Sedan",
    license_plate := .jstr "ABC123",
    driver_id := .jnum 1 }

/-- A concrete run: register users 1 and 2, create the demo ride (driver
1), user 2 requests to join, the driver accepts. -/
def demoState : AppState :=
  step (step (step (step (step initState (.register 1)) (.register 2))
    (.create 0 demoBody)) (.join 1 (some 2))) (.accept 1 (some 2))

theorem demoState_reachable : Reachable demoState :=
  Reachable.next _ (Reachable.next _ (Reachable.next _
    (Reachable.next _ (Reachable.next _ Reachable.init))))

/-- The demo ride as it stands at `demoState`: user 2 confirmed. -/
def demoRide : Ride :=
  { rid := 1,
    start_location := "Ithaca",
    end_location := "NYC",
    start_time := 10000,
    total_capacity := 2,
    price := 15,
    car_type := "Sedan",
    license_plate := "ABC123",
    driver_id := 1,
    passengers := [2],
    pending_passengers := [] }

/-- **C1** For every reachable state of the system (any sequence of API
calls starting from the empty store), every ride keeps its confirmed
passenger count at or below `total_capacity - 1`: no operation ever
pushes the confirmed count past the passenger ceiling. -/
theorem reachable_confirmed_le_capacity_sub_one {s : AppState}
    (hs : Reachable s) :
    ∀ r ∈ s.rides, (r.passengers.length : Int) ≤ r.total_capacity - 1 :=
  fun r hr => (reachable_inv hs r hr).2.1

/-- Witness for C1: the reachable `demoState` contains `demoRide`, whose
one confirmed passenger fits the ceiling `2 - 1`. -/
theorem reachable_confirmed_le_capacity_sub_one_witness :
    (demoRide.passengers.length : Int) ≤ demoRide.total_capacity - 1 :=
  reachable_confirmed_le_capacity_sub_one demoState_reachable demoRide (by decide)

/-- **C5** In every reachable state the confirmed and pending lists of a
ride are disjoint and the driver belongs to neither. -/
theorem reachable_rosters_disjoint {s : AppState} (hs : Reachable s) :
    ∀ r ∈ s.rides,
      (∀ u ∈ r.passengers, u ∉ r.pending_passengers) ∧
      r.driver_id ∉ r.passengers ∧ r.driver_id ∉ r.pending_passengers :=
  fun r hr =>
    ⟨(reachable_inv hs r hr).2.2.2.2.2.2,
     (reachable_inv hs r hr).2.2.2.2.1,
     (reachable_inv hs r hr).2.2.2.2.2.1⟩

/-- Witness for C5: in `demoState` the demo ride's driver sits in neither
roster list, and its one confirmed passenger is not pending. -/
theorem reachable_rosters_disjoint_witness :
    demoRide.driver_id ∉ demoRide.passengers ∧
    demoRide.driver_id ∉ demoRide.pending_passengers :=
  ⟨(reachable_rosters_disjoint demoState_reachable demoRide (by decide)).2.1,
   (reachable_rosters_disjoint demoState_reachable demoRide (by decide)).2.2⟩

/-- After writing back an update of the found row, a lookup by the same id
returns the updated row. -/
theorem find?_putRide {rides : List Ride} {rid : RideId} {c c' : Ride}
    (hfind : rides.find? (fun r => r.rid == rid) = some c)
    (hid : c'.rid = c.rid) :
    (putRide rides c').find? (fun r => r.rid == rid) = some c' := by
  have hcrid : c.rid = rid := by
    have := List.find?_some hfind
    simpa using this
  induction rides with
  | nil => simp at hfind
  | cons x xs ih =>
    rw [List.find?_cons] at hfind
    by_cases hx : (x.rid == rid) = true
    · simp only [hx] at hfind
      have hxc : x = c := by injection hfind
      subst hxc
      rw [putRide, if_pos (by simp [hid])]
      rw [List.find?_cons]
      simp [hid, hcrid]
    · simp only [Bool.not_eq_true] at hx
      simp only [hx] at hfind
      rw [putRide, if_neg (by
        simp only [beq_eq_false_iff_ne] at hx
        simp only [beq_iff_eq, hid, hcrid]
        exact hx)]
      rw [List.find?_cons]
      simp only [hx]
      exact ih hfind

/-- Writing back an update of the found row and then writing back the
original row restores the table. -/
theorem putRide_putRide {rides : List Ride} {rid : RideId} {c c' : Ride}
    (hfind : rides.find? (fun r => r.rid == rid) = some c)
    (hid : c'.rid = c.rid) :
    putRide (putRide rides c') c = rides := by
  have hcrid : c.rid = rid := by
    have := List.find?_some hfind
    simpa using this
  induction rides with
  | nil => simp at hfind
  | cons x xs ih =>
    rw [List.find?_cons] at hfind
    by_cases hx : (x.rid == rid) = true
    · simp only [hx] at hfind
      have hxc : x = c := by injection hfind
      subst hxc
      rw [putRide, if_pos (by simp [hid])]
      rw [putRide, if_pos (by simp [hid])]
    · simp only [Bool.not_eq_true] at hx
      simp only [hx] at hfind
      have hxne : ¬(x.rid == c'.rid) = true := by
        simp only [beq_eq_false_iff_ne] at hx
        simp only [beq_iff_eq, hid, hcrid]
        exact hx
      rw [putRide, if_neg hxne]
      rw [putRide, if_neg (by
        simp only [beq_eq_false_iff_ne] at hx
        simp only [beq_iff_eq, hcrid]
        exact hx)]
      rw [ih hfind]

/-- **C7** A successful join request followed by cancelling the pending
request restores the store exactly as it was before the request: the
ride's confirmed list, pending list and driver (and everything else in
the store) are unchanged. -/
theorem join_then_cancel_roundtrip {s s' : AppState} {rid : RideId}
    {uid : UserId} (h : join_carpool s rid (some uid) = .ok s') :
    cancel_pending_request s' rid (some uid) = .ok s := by
  simp only [join_carpool] at h
  split at h
  · exact Except.noConfusion h
  case _ carpool hfind =>
    split at h
    · exact Except.noConfusion h
    case _ husers =>
      split at h
      · exact Except.noConfusion h
      case _ hfull =>
        split at h
        · exact Except.noConfusion h
        case _ hrider =>
          split at h
          · exact Except.noConfusion h
          case _ hpend =>
            split at h
            · exact Except.noConfusion h
            case _ havail =>
              simp only [Except.ok.injEq] at h
              subst h
              have hnotpend : uid ∉ carpool.pending_passengers := by
                rw [← contains_false_iff]
                cases hcc : carpool.pending_passengers.contains uid with
                | true => exact absurd hcc hpend
                | false => rfl
              simp only [cancel_pending_request]
              have hfind' : findRide
                  { s with rides := putRide s.rides ({ carpool with
                      pending_passengers :=
                        carpool.pending_passengers ++ [uid] }) } rid =
                  some { carpool with pending_passengers :=
                        carpool.pending_passengers ++ [uid] } := by
                unfold findRide at hfind ⊢
                exact find?_putRide hfind rfl
              simp only [hfind']
              rw [if_neg husers]
              rw [if_neg (by simp)]
              have herase : (carpool.pending_passengers ++ [uid]).erase uid =
                  carpool.pending_passengers := by
                rw [List.erase_append_right _ hnotpend]
                simp
              simp only [Except.ok.injEq, herase]
              unfold findRide at hfind
              congr 1
              have : ({ carpool with pending_passengers := carpool.pending_passengers } : Ride) = carpool := rfl
              rw [this]
              exact putRide_putRide hfind rfl

/-- The demo store just before user 2's join request. -/
def demoStateBefore : AppState :=
  step (step (step initState (.register 1)) (.register 2)) (.create 0 demoBody)

/-- The demo store just after user 2's join request succeeds. -/
def demoJoined : AppState := step demoStateBefore (.join 1 (some 2))

/-- Witness for C7: on the concrete demo store, user 2's successful join
followed by cancel returns exactly the pre-join store. -/
theorem join_then_cancel_roundtrip_witness :
    cancel_pending_request demoJoined 1 (some 2) = .ok demoStateBefore :=
  join_then_cancel_roundtrip (by rfl)

/-- **C10** `decline_rider` and `cancel_pending_request` are extensionally
equal: for every store, carpool id and request body they perform the same
checks with the same results, and on success both remove the user from the
ride's pending list and change nothing else. -/
theorem decline_rider_eq_cancel_pending (s : AppState) (carpool_id : RideId)
    (user_id : Option UserId) :
    decline_rider s carpool_id user_id = cancel_pending_request s carpool_id user_id :=
  rfl

/-- **C2** `join_carpool` follows its sequential check cascade: `NotFound`
when the ride or the user is missing, then `CapacityExceeded` when
`available_seats ≤ 0`, then `AlreadyRider` when the user is the driver or
already confirmed, then `AlreadyPending` when already pending, then
`ScheduleConflict` when the conflict checker reports a conflict at the
ride's start time; when every check passes the user becomes pending and
nothing else in the store changes. -/
theorem join_carpool_spec (s : AppState) (rid : RideId) (uid : UserId) :
    (findRide s rid = none →
      join_carpool s rid (some uid) = .error .carpoolNotFound) ∧
    (∀ c, findRide s rid = some c → uid ∉ s.users →
      join_carpool s rid (some uid) = .error .userNotFound) ∧
    (∀ c, findRide s rid = some c → uid ∈ s.users → available_seats c ≤ 0 →
      join_carpool s rid (some uid) = .error .carpoolFull) ∧
    (∀ c, findRide s rid = some c → uid ∈ s.users → 0 < available_seats c →
      (uid = c.driver_id ∨ uid ∈ c.passengers) →
      join_carpool s rid (some uid) = .error .alreadyCurrentRider) ∧
    (∀ c, findRide s rid = some c → uid ∈ s.users → 0 < available_seats c →
      ¬(uid = c.driver_id ∨ uid ∈ c.passengers) → uid ∈ c.pending_passengers →
      join_carpool s rid (some uid) = .error .alreadyPendingRider) ∧
    (∀ c, findRide s rid = some c → uid ∈ s.users → 0 < available_seats c →
      ¬(uid = c.driver_id ∨ uid ∈ c.passengers) → uid ∉ c.pending_passengers →
      check_passenger_availability s uid c.start_time = false →
      join_carpool s rid (some uid) = .error .scheduleConflictUser) ∧
    (∀ c, findRide s rid = some c → uid ∈ s.users → 0 < available_seats c →
      ¬(uid = c.driver_id ∨ uid ∈ c.passengers) → uid ∉ c.pending_passengers →
      check_passenger_availability s uid c.start_time = true →
      join_carpool s rid (some uid) = .ok { s with rides := putRide s.rides ({ c with pending_passengers := c.pending_passengers ++ [uid] }) }) := by
  refine ⟨?_, ?_, ?_, ?_, ?_, ?_, ?_⟩
  · intro hf
    simp only [join_carpool, hf]
  · intro c hf hu
    simp only [join_carpool, hf]
    rw [if_pos (contains_false_iff.mpr hu)]
  · intro c hf hu hseat
    simp only [join_carpool, hf]
    rw [if_neg (by simp [contains_false_iff, hu])]
    rw [if_pos (by unfold available_seats at hseat; omega)]
  · intro c hf hu hseat hrider
    simp only [join_carpool, hf]
    rw [if_neg (by simp [contains_false_iff, hu])]
    rw [if_neg (by unfold available_seats at hseat; omega)]
    rw [if_pos (by rcases hrider with h | h <;> simp [h])]
  · intro c hf hu hseat hrider hpend
    simp only [join_carpool, hf]
    rw [if_neg (by simp [contains_false_iff, hu])]
    rw [if_neg (by unfold available_seats at hseat; omega)]
    rw [if_neg (by simpa using hrider)]
    rw [if_pos (contains_true_iff.mpr hpend)]
  · intro c hf hu hseat hrider hpend havail
    simp only [join_carpool, hf]
    rw [if_neg (by simp [contains_false_iff, hu])]
    rw [if_neg (by unfold available_seats at hseat; omega)]
    rw [if_neg (by simpa using hrider)]
    rw [if_neg (by simp [contains_true_iff, hpend])]
    rw [if_pos havail]
  · intro c hf hu hseat hrider hpend havail
    simp only [join_carpool, hf]
    rw [if_neg (by simp [contains_false_iff, hu])]
    rw [if_neg (by unfold available_seats at hseat; omega)]
    rw [if_neg (by simpa using hrider)]
    rw [if_neg (by simp [contains_true_iff, hpend])]
    rw [if_neg (by simp [havail])]

/-- The demo ride as freshly created, before any join request. -/
def demoRideBefore : Ride :=
  { demoRide with passengers := [], pending_passengers := [] }

/-- Witness for C2: on the concrete demo store every hypothesis of the
success clause holds for user 2, and the request appends user 2 to the
pending list of the demo ride, changing nothing else. -/
theorem join_carpool_spec_witness :
    join_carpool demoStateBefore 1 (some 2) = .ok { demoStateBefore with rides := putRide demoStateBefore.rides ({ demoRideBefore with pending_passengers := demoRideBefore.pending_passengers ++ [2] }) } :=
  (join_carpool_spec demoStateBefore 1 2).2.2.2.2.2.2 demoRideBefore (by decide)
    (by decide) (by decide) (by decide) (by decide) (by decide)

/-- **C3** `accept_rider`, for an existing ride and user: fails with
`NotPending` whenever the user is not in the ride's pending list (in
particular when no join request was ever made), fails with
`CapacityExceeded` when no passenger seat remains — re-checked at accept
time — and otherwise moves the user from the pending list to the
confirmed list in one state update (failures return before any mutation,
so the store is unchanged on failure). -/
theorem accept_rider_spec (s : AppState) (rid : RideId) (uid : UserId) :
    (∀ c, findRide s rid = some c → uid ∈ s.users → uid ∉ c.pending_passengers →
      accept_rider s rid (some uid) = .error .notInPendingList) ∧
    (∀ c, findRide s rid = some c → uid ∈ s.users → uid ∈ c.pending_passengers →
      available_seats c ≤ 0 →
      accept_rider s rid (some uid) = .error .carpoolFull) ∧
    (∀ c, findRide s rid = some c → uid ∈ s.users → uid ∈ c.pending_passengers →
      0 < available_seats c →
      accept_rider s rid (some uid) = .ok { s with rides := putRide s.rides ({ c with pending_passengers := c.pending_passengers.erase uid, passengers := c.passengers ++ [uid] }) }) := by
  refine ⟨?_, ?_, ?_⟩
  · intro c hf hu hpend
    simp only [accept_rider, hf]
    rw [if_neg (by simp [contains_false_iff, hu])]
    rw [if_pos (contains_false_iff.mpr hpend)]
  · intro c hf hu hpend hseat
    simp only [accept_rider, hf]
    rw [if_neg (by simp [contains_false_iff, hu])]
    rw [if_neg (by simp [contains_false_iff, hpend])]
    rw [if_pos (by unfold available_seats at hseat; omega)]
  · intro c hf hu hpend hseat
    simp only [accept_rider, hf]
    rw [if_neg (by simp [contains_false_iff, hu])]
    rw [if_neg (by simp [contains_false_iff, hpend])]
    rw [if_neg (by unfold available_seats at hseat; omega)]

/-- The demo ride with user 2 pending, after the join request. -/
def demoRidePending : Ride :=
  { demoRide with passengers := [], pending_passengers := [2] }

/-- Witness for C3: on the demo store with user 2 pending, accepting user
2 moves them from the pending list to the confirmed list. -/
theorem accept_rider_spec_witness :
    accept_rider demoJoined 1 (some 2) = .ok { demoJoined with rides := putRide demoJoined.rides ({ demoRidePending with pending_passengers := demoRidePending.pending_passengers.erase 2, passengers := demoRidePending.passengers ++ [2] }) } :=
  (accept_rider_spec demoJoined 1 2).2.2 demoRidePending (by decide) (by decide)
    (by decide) (by decide)

/-- A ride user 4 is confirmed on, departing at t = 100000 s. -/
def conflictRideA : Ride :=
  { rid := 1, start_location := "A", end_location := "B", start_time := 100000,
    total_capacity := 3, price := 10, car_type := "Sedan",
    license_plate := "AAA111", driver_id := 1, passengers := [4],
    pending_passengers := [] }

/-- A ride departing 59 minutes (3540 s) after `conflictRideA`. -/
def conflictRideB : Ride :=
  { rid := 2, start_location := "C", end_location := "D", start_time := 103540,
    total_capacity := 3, price := 10, car_type := "Sedan",
    license_plate := "BBB222", driver_id := 2, passengers := [],
    pending_passengers := [] }

/-- A ride departing 3 hours (10800 s) after `conflictRideA`. -/
def conflictRideC : Ride :=
  { rid := 3, start_location := "E", end_location := "F", start_time := 110800,
    total_capacity := 3, price := 10, car_type := "Sedan",
    license_plate := "CCC333", driver_id := 3, passengers := [],
    pending_passengers := [] }

/-- Store for the schedule-conflict scenario: user 4 is confirmed on
`conflictRideA` only. -/
def conflictState : AppState :=
  { users := [1, 2, 3, 4], rides := [conflictRideA, conflictRideB, conflictRideC],
    next_ride_id := 4 }

/-- **C4** `check_passenger_availability` returns false exactly when some
ride on which the user is the driver or a confirmed passenger starts
strictly within 2 hours (7200 s) of the candidate time; pending-only
involvement never counts, and with no commitments the user is always
available (the condition is vacuously false over an empty commitment
set).  Consequently, on the concrete conflict store, user 4's request to
join a ride 59 minutes from their confirmed ride fails with
`ScheduleConflict` while a ride 3 hours away succeeds. -/
theorem check_passenger_availability_spec :
    (∀ (s : AppState) (uid : UserId) (t : Int),
      check_passenger_availability s uid t = false ↔
        ∃ c ∈ s.rides, (c.driver_id = uid ∨ uid ∈ c.passengers) ∧
          (c.start_time - t).natAbs < 7200) ∧
    join_carpool conflictState 2 (some 4) = .error .scheduleConflictUser ∧
    join_carpool conflictState 3 (some 4) =
      .ok (applyResult conflictState (join_carpool conflictState 3 (some 4))) := by
  refine ⟨?_, by decide, by rfl⟩
  intro s uid t
  unfold check_passenger_availability
  simp only [Bool.eq_false_iff, ne_eq, List.all_eq_true, List.mem_append,
    List.mem_filter, not_forall]
  constructor
  · rintro ⟨c, hc, hp⟩
    rcases hc with ⟨hm, hf⟩ | ⟨hm, hf⟩
    · exact ⟨c, hm, Or.inl (by simpa using hf), by simpa using hp⟩
    · exact ⟨c, hm, Or.inr (by simpa using hf), by simpa using hp⟩
  · rintro ⟨c, hm, hrole, hdiff⟩
    rcases hrole with hr | hr
    · exact ⟨c, Or.inl ⟨hm, by simpa using hr⟩, by simpa using hdiff⟩
    · exact ⟨c, Or.inr ⟨hm, by simpa using hr⟩, by simpa using hdiff⟩

/-- Witness for C4: user 4 is unavailable 59 minutes after their
confirmed ride's departure, instantiating the conflict criterion at
`conflictRideA`. -/
theorem check_passenger_availability_spec_witness :
    check_passenger_availability conflictState 4 103540 = false :=
  (check_passenger_availability_spec.1 conflictState 4 103540).mpr
    ⟨conflictRideA, by decide, Or.inr (by decide), by decide⟩

/-- The store after a successful delete: the carpool row is gone. -/
def deleteResult (s : AppState) (rid : RideId) : AppState :=
  { s with rides := s.rides.filter (fun r => !(r.rid == rid)) }

/-- **C8** `delete_carpool`, for an existing ride and a present `user_id`:
fails with `Forbidden` whenever the requester is not the ride's driver
(the error is returned before any mutation, so the store is unchanged);
when the requester is the driver the ride is removed from the catalog, no
user has it in their derived confirmed or pending back-references any
more, and the user table is untouched. -/
theorem delete_carpool_spec (s : AppState) (rid : RideId) (uid : UserId) :
    (∀ c, findRide s rid = some c → uid ≠ c.driver_id →
      delete_carpool s rid (some uid) = .error .onlyDriverCanDelete) ∧
    (∀ c, findRide s rid = some c → uid = c.driver_id →
      delete_carpool s rid (some uid) = .ok (deleteResult s rid) ∧
      findRide (deleteResult s rid) rid = none ∧
      (∀ u r, r ∈ joined_carpools (deleteResult s rid) u → r.rid ≠ rid) ∧
      (∀ u r, r ∈ pending_carpools (deleteResult s rid) u → r.rid ≠ rid) ∧
      (∀ r ∈ (deleteResult s rid).rides, r ∈ s.rides) ∧
      (deleteResult s rid).users = s.users) := by
  refine ⟨?_, ?_⟩
  · intro c hf hne
    simp only [delete_carpool, hf]
    rw [if_pos (by simp [bne_iff_ne]; exact hne)]
  · intro c hf he
    refine ⟨?_, ?_, ?_, ?_, ?_, rfl⟩
    · simp only [delete_carpool, hf, deleteResult]
      rw [if_neg (by simp [bne_iff_ne, he])]
    · show (deleteResult s rid).rides.find? (fun r => r.rid == rid) = none
      rw [List.find?_eq_none]
      intro x hx
      have := (List.mem_filter.mp hx).2
      simpa using this
    · intro u r hr
      have h1 := List.mem_filter.mp hr
      have h2 := List.mem_filter.mp h1.1
      simpa using h2.2
    · intro u r hr
      have h1 := List.mem_filter.mp hr
      have h2 := List.mem_filter.mp h1.1
      simpa using h2.2
    · intro r hr
      exact (List.mem_filter.mp hr).1

/-- Witness for C8: the driver (user 1) deletes the demo ride; the row is
gone from the catalog afterwards. -/
theorem delete_carpool_spec_witness :
    delete_carpool demoState 1 (some 1) = .ok (deleteResult demoState 1) ∧
    findRide (deleteResult demoState 1) 1 = none :=
  ⟨((delete_carpool_spec demoState 1 1).2 demoRide (by decide) (by decide)).1,
   ((delete_carpool_spec demoState 1 1).2 demoRide (by decide) (by decide)).2.1⟩

/-- The spec's search filter set (§4.3): optional destination and origin
text filters and optional inclusive time bounds. -/
structure SearchFilters where
  destination : Option String
  origin : Option String
  minTime : Option Int
  maxTime : Option Int
deriving DecidableEq, Repr

/-- Case-sensitive substring test on the character lists of the strings. -/
def strContains (s pat : String) : Bool :=
  decide (pat.data <:+: s.data)

/-- Modelled from the spec (§4.3), for comparison with the code's
`get_all_carpools`: every present filter is a conjunctive predicate, the
text filters are case-sensitive substring matches (destination against
`end_location`, origin against `start_location`), the time filters are
inclusive bounds on the start time. -/
def searchSpec (s : AppState) (f : SearchFilters) : List Ride :=
  s.rides.filter (fun r =>
    (match f.destination with
     | none => true
     | some d => strContains r.end_location d) &&
    (match f.origin with
     | none => true
     | some o => strContains r.start_location o) &&
    (match f.minTime with
     | none => true
     | some lo => decide (lo ≤ r.start_time)) &&
    (match f.maxTime with
     | none => true
     | some hi => decide (r.start_time ≤ hi)))

/-- The empty filter set. -/
def noFilters : SearchFilters :=
  { destination := none, origin := none, minTime := none, maxTime := none }

/-- C9 as stated is false on the code: `get_all_carpools` reads no
filters, so with a destination filter matching no ride it still returns
every ride instead of the filtered list. -/
theorem get_all_carpools_ignores_filters :
    get_all_carpools conflictState ≠
      searchSpec conflictState
        { destination := some "Nowhere", origin := none,
          minTime := none, maxTime := none } := by
  decide

/-- **C9 (amended)** The all-carpools endpoint accepts no filters and
returns every ride in the store; this coincides with the spec's search
exactly on the empty filter set (all rides, and — the endpoint being a
pure read — stable across repeated calls with no intervening mutation). -/
theorem get_all_carpools_spec (s : AppState) :
    get_all_carpools s = s.rides ∧
    get_all_carpools s = searchSpec s noFilters := by
  refine ⟨rfl, ?_⟩
  unfold get_all_carpools searchSpec
  simp [noFilters]

/-- A store with users 1 and 2 registered and no rides. -/
def demoUsersOnly : AppState :=
  step (step initState (.register 1)) (.register 2)

/-- A creation request valid in every respect except that the price is
the JSON number 0. -/
def priceZeroBody : CreateBody :=
  { demoBody with price := .jnum 0 }

/-- C6 as stated is false on the code: with every other field valid and
price equal to the number 0, `create_carpool` does not succeed — the
required-field presence test uses Python truthiness, `0` is falsy, and
the request dies with the missing-required-field form of `InvalidField`
even though the price is not negative. -/
theorem create_carpool_rejects_price_zero :
    create_carpool demoUsersOnly 0 priceZeroBody =
      .error (.missingField "price") ∧
    Err.isInvalidField (.missingField "price") = true := by
  exact ⟨by decide, by decide⟩

/-- Whether `create_carpool` fails with an `InvalidField`-class error. -/
def createFailsInvalidField (s : AppState) (now : Int) (b : CreateBody) : Bool :=
  match create_carpool s now b with
  | .error e => e.isInvalidField
  | .ok _ => false

/-- The validation condition of `create_carpool`, written directly on the
request body: some required field is missing or falsy (which includes a
price or capacity equal to the number 0), or the price does not parse or
is negative, or the capacity does not parse or is at most 1, or the start
time does not parse or is not strictly in the future. -/
def createValidationFails (now : Int) (b : CreateBody) : Bool :=
  !b.start_location.truthy || !b.end_location.truthy ||
  !b.start_time.truthy || !b.total_capacity.truthy ||
  !b.price.truthy || !b.car_type.truthy ||
  !b.license_plate.truthy || !b.driver_id.truthy ||
  (match b.price.toNum with
   | none => true
   | some p => decide (p < 0)) ||
  (match b.total_capacity.toNum with
   | none => true
   | some n => decide (n ≤ 1)) ||
  (match b.start_time with
   | .absent => true
   | .unparsable => true
   | .parsed t => decide (t ≤ now))

/-- A creation request with capacity 1. -/
def capacityOneBody : CreateBody :=
  { demoBody with total_capacity := .jnum 1 }

/-- **C6 (amended)** `create_carpool` fails with an `InvalidField`-class
error exactly when its validation condition holds: some required field is
missing or falsy — which includes a numeric price 0 and a numeric
capacity 0, presence being tested by truthiness — or the price does not
parse or is negative, or the capacity does not parse or is ≤ 1, or the
start time does not parse or is not strictly in the future.  When every
validation passes and the driver exists but already has a ride as driver
within 2 hours of the requested time, it fails with `ScheduleConflict`.
In particular a past start time and a capacity of 1 fail with
`InvalidField`-class errors. -/
theorem create_carpool_invalid_field_spec (s : AppState) (now : Int)
    (b : CreateBody) :
    createFailsInvalidField s now b = createValidationFails now b ∧
    (∀ t did, createValidationFails now b = false →
      b.start_time = .parsed t →
      b.driver_id.asUserId = some did → did ∈ s.users →
      check_driver_availability s did t = false →
      create_carpool s now b = .error .driverScheduleConflict) ∧
    create_carpool demoUsersOnly 1000000 demoBody = .error .pastStartTime ∧
    create_carpool demoUsersOnly 0 capacityOneBody = .error .capacityTooSmall := by
  refine ⟨?_, ?_, by decide, by decide⟩
  · unfold createFailsInvalidField create_carpool createValidationFails
    by_cases h1 : b.start_location.truthy = false
    · simp [h1, Err.isInvalidField]
    by_cases h2 : b.end_location.truthy = false
    · simp [h1, h2, Err.isInvalidField]
    by_cases h3 : b.start_time.truthy = false
    · simp [h1, h2, h3, Err.isInvalidField]
    by_cases h4 : b.total_capacity.truthy = false
    · simp [h1, h2, h3, h4, Err.isInvalidField]
    by_cases h5 : b.price.truthy = false
    · simp [h1, h2, h3, h4, h5, Err.isInvalidField]
    by_cases h6 : b.car_type.truthy = false
    · simp [h1, h2, h3, h4, h5, h6, Err.isInvalidField]
    by_cases h7 : b.license_plate.truthy = false
    · simp [h1, h2, h3, h4, h5, h6, h7, Err.isInvalidField]
    by_cases h8 : b.driver_id.truthy = false
    · simp [h1, h2, h3, h4, h5, h6, h7, h8, Err.isInvalidField]
    rcases hpn : b.price.toNum with _ | p
    · simp [h1, h2, h3, h4, h5, h6, h7, h8, hpn, Err.isInvalidField]
    by_cases h9 : p < 0
    · simp [h1, h2, h3, h4, h5, h6, h7, h8, hpn, h9, Err.isInvalidField]
    rcases hcn : b.total_capacity.toNum with _ | n
    · simp [h1, h2, h3, h4, h5, h6, h7, h8, hpn, h9, hcn, Err.isInvalidField]
    by_cases h10 : n ≤ 1
    · simp [h1, h2, h3, h4, h5, h6, h7, h8, hpn, h9, hcn, h10, Err.isInvalidField]
    rcases hst : b.start_time with _ | _ | t
    · rw [hst] at h3
      simp [TimeField.truthy] at h3
    · simp [h1, h2, h3, h4, h5, h6, h7, h8, hpn, h9, hcn, h10, hst,
        TimeField.truthy, Err.isInvalidField]
    by_cases h11 : t ≤ now
    · simp [h1, h2, h3, h4, h5, h6, h7, h8, hpn, h9, hcn, h10, hst, h11,
        TimeField.truthy, Err.isInvalidField]
    rcases hdu : b.driver_id.asUserId with _ | did
    · simp [h1, h2, h3, h4, h5, h6, h7, h8, hpn, h9, hcn, h10, hst, h11, hdu,
        TimeField.truthy, Err.isInvalidField]
    by_cases h12 : s.users.contains did = false
    · simp [h1, h2, h3, h4, h5, h6, h7, h8, hpn, h9, hcn, h10, hst, h11, hdu,
        h12, TimeField.truthy, contains_false_iff.mp h12, Err.isInvalidField]
    have hmem12 : did ∈ s.users := by
      cases hc : s.users.contains did with
      | false => exact absurd hc h12
      | true => exact contains_true_iff.mp hc
    by_cases h13 : check_driver_availability s did t = false
    · simp [h1, h2, h3, h4, h5, h6, h7, h8, hpn, h9, hcn, h10, hst, h11, hdu,
        h12, h13, hmem12, TimeField.truthy, Err.isInvalidField]
    · simp [h1, h2, h3, h4, h5, h6, h7, h8, hpn, h9, hcn, h10, hst, h11, hdu,
        h12, h13, hmem12, TimeField.truthy, Err.isInvalidField]
  · intro t did hval hst hdu hmem hconf
    unfold createValidationFails at hval
    rw [hst] at hval
    rcases hpn : b.price.toNum with _ | p
    · rw [hpn] at hval
      simp at hval
    rcases hcn : b.total_capacity.toNum with _ | n
    · rw [hcn] at hval
      simp at hval
    rw [hpn, hcn] at hval
    simp only [Bool.or_eq_false_iff, Bool.not_eq_false', decide_eq_false_iff_not,
      TimeField.truthy] at hval
    simp [create_carpool, hval, hpn, hcn, hst, hdu, TimeField.truthy, hmem,
      contains_true_iff.mpr hmem, hconf]

/-- A creation request by driver 2 at t = 104000 s, 460 s away from
driver 2's existing `conflictRideB`. -/
def conflictCreateBody : CreateBody :=
  { demoBody with driver_id := .jnum 2, start_time := .parsed 104000 }

/-- Witness for C6 (amended): a past start time yields an
`InvalidField`-class failure on the concrete store, and driver 2 creating
a ride 460 seconds from their existing one fails with
`ScheduleConflict`. -/
theorem create_carpool_invalid_field_spec_witness :
    createFailsInvalidField demoUsersOnly 1000000 demoBody = true ∧
    create_carpool conflictState 0 conflictCreateBody =
      .error .driverScheduleConflict :=
  ⟨(create_carpool_invalid_field_spec demoUsersOnly 1000000 demoBody).1.trans
      (by decide),
   (create_carpool_invalid_field_spec conflictState 0 conflictCreateBody).2.1
      104000 2 (by decide) (by decide) (by decide) (by decide) (by decide)⟩
